import Mathlib

/-!
Shallow embedding of the error-handling facility of `rustic.hpp`
(`Option<T>`, `Result<T,E>`, panic, match dispatch, builder values).

The C++ containers store their payload in a two-alternative
`std::variant`; panicking accessors call `rs_panic`, which writes a
diagnostic to stderr and aborts the process and therefore never returns.
We model a possibly-panicking computation by the sum type `PanicOr`,
carrying the message handed to `rs_panic`, and the stderr diagnostic by
`panicDiagnostic`.
-/

set_option autoImplicit false

namespace Rustic

/-- Model of `std::monostate`: the stateless empty alternative. -/
structure Monostate : Type where
deriving DecidableEq

/-- Model of a two-alternative `std::variant<A, B>`: `alt0` is index 0,
`alt1` is index 1. -/
inductive Variant2 (A B : Type) : Type
  | alt0 (a : A)
  | alt1 (b : B)
deriving DecidableEq

/-- `std::variant::index()`. -/
def Variant2.index {A B : Type} : Variant2 A B → Nat
  | .alt0 _ => 0
  | .alt1 _ => 1

/-- Result of a computation that either returns normally or panics.
`panic msg` records the message passed to `rs_panic`; control never
returns past it (`std::abort`). -/
inductive PanicOr (α : Type) : Type
  | panic (msg : String)
  | ret (a : α)
deriving DecidableEq

/-- `std::get<0>` on a `Variant2`: succeeds on `alt0`, otherwise the
access is invalid (modelled as a panic, mirroring `bad_variant_access`). -/
def Variant2.get0 {A B : Type} : Variant2 A B → PanicOr A
  | .alt0 a => .ret a
  | .alt1 _ => .panic "bad variant access"

/-- `std::get<1>` (equivalently `std::get<T>` for the payload alternative)
on a `Variant2`: succeeds on `alt1`. -/
def Variant2.get1 {A B : Type} : Variant2 A B → PanicOr B
  | .alt1 b => .ret b
  | .alt0 _ => .panic "bad variant access"

/-- `rs_panic(msg)`: prints the diagnostic and aborts; modelled as the
`panic` outcome carrying `msg`. -/
def rs_panic {α : Type} (msg : String) : PanicOr α :=
  PanicOr.panic msg

/-- The text `rs_panic` writes to `std::cerr` before aborting. -/
def panicDiagnostic (msg : String) : String :=
  "[Panic] " ++ msg

/-- `struct Unit`: zero-information payload. -/
structure Unit : Type where
deriving DecidableEq

/-- `Unit::operator==`: always true. -/
def Unit.eq (_a _b : Unit) : Bool := true

/-- `Unit::operator!=`: always false. -/
def Unit.ne (_a _b : Unit) : Bool := false

/-- `Option<T>`: wraps `std::variant<std::monostate, T> value`. -/
structure Option (T : Type) : Type where
  value : Variant2 Monostate T
deriving DecidableEq

/-- `Option()` default constructor: `value(std::monostate{})`. -/
def Option.mkDefault {T : Type} : Option T :=
  ⟨Variant2.alt0 ⟨⟩⟩

/-- `Option(std::monostate)` converting constructor: `value(std::monostate{})`. -/
def Option.ofMonostate {T : Type} (_m : Monostate) : Option T :=
  ⟨Variant2.alt0 ⟨⟩⟩

/-- `Option(const T&)` / `Option(T&&)` converting constructors:
`value(val)`. Copy and move both store the given payload. -/
def Option.ofVal {T : Type} (val : T) : Option T :=
  ⟨Variant2.alt1 val⟩

/-- Static factory `Option<T>::Some(val)`. -/
def Option.Some {T : Type} (val : T) : Option T :=
  Option.ofVal val

/-- Static factory `Option<T>::None()`: default-constructs. -/
def Option.None {T : Type} : Option T :=
  Option.mkDefault

/-- `Option::is_some()`: `std::holds_alternative<T>(value)`. -/
def Option.is_some {T : Type} (o : Option T) : Bool :=
  match o.value with
  | .alt1 _ => true
  | .alt0 _ => false

/-- `Option::is_none()`: `std::holds_alternative<std::monostate>(value)`. -/
def Option.is_none {T : Type} (o : Option T) : Bool :=
  match o.value with
  | .alt0 _ => true
  | .alt1 _ => false

/-- `Option::operator bool()`: `is_some()`. -/
def Option.toBool {T : Type} (o : Option T) : Bool :=
  o.is_some

/-- The message `Option::unwrap()` passes to `rs_panic` on a `None`. -/
def optionUnwrapNoneMsg : String :=
  "called `Option::unwrap()` on a `None` value"

/-- `Option::unwrap()`: panics with `optionUnwrapNoneMsg` if `is_none()`,
else returns `std::get<T>(value)`. -/
def Option.unwrap {T : Type} (o : Option T) : PanicOr T :=
  if o.is_none then rs_panic optionUnwrapNoneMsg else o.value.get1

/-- `Option::expect(msg)`: panics with the caller's message if `is_none()`. -/
def Option.expect {T : Type} (o : Option T) (msg : String) : PanicOr T :=
  if o.is_none then rs_panic msg else o.value.get1

/-- `Option::unwrap_or(def)`: `is_some() ? std::get<T>(value) : def`. -/
def Option.unwrap_or {T : Type} (o : Option T) (d : T) : PanicOr T :=
  if o.is_some then o.value.get1 else PanicOr.ret d

/-- `Option::operator*`: body is `return unwrap();`. -/
def Option.star {T : Type} (o : Option T) : PanicOr T :=
  o.unwrap

/-- `Option::operator->`: body is `return &unwrap();` — the pointed-to
payload is the one `unwrap()` yields. -/
def Option.arrow {T : Type} (o : Option T) : PanicOr T :=
  o.unwrap

/-- The first `match` branch of `Option::match(f_some, f_none)`. The C++
dispatcher introspects `std::is_invocable_v<F1, const T&>`: a callable
invocable with the payload is the `unary` shape, any other callable
(e.g. `DefaultCase()`) is the `nullary` shape. -/
inductive SomeBranch (T R : Type) : Type
  | unary (f : T → R)
  | nullary (f : Unit → R)

/-- `Option::match(f_some, f_none)`: if `is_some()`, invokes `f_some` —
with `std::get<T>(value)` when invocable with the payload, with no
arguments otherwise; else invokes `f_none()`. Returns the branch's
return value. -/
def Option.match' {T R : Type} (o : Option T) (f_some : SomeBranch T R)
    (f_none : Unit → R) : R :=
  match o.value with
  | .alt1 v =>
    match f_some with
    | .unary f => f v
    | .nullary f => f ⟨⟩
  | .alt0 _ => f_none ⟨⟩

/-- `OkValue<T>`: builder value holding `T value`. -/
structure OkValue (T : Type) : Type where
  value : T
deriving DecidableEq

/-- `ErrValue<E>`: builder value holding `E error`. -/
structure ErrValue (E : Type) : Type where
  error : E
deriving DecidableEq

/-- `Result<T, E>`: wraps `std::variant<T, E> value`; index 0 is the
success payload, index 1 the failure payload. -/
structure Result (T E : Type) : Type where
  value : Variant2 T E
deriving DecidableEq

/-- `Result(const T&)` / `Result(T&&)`: `value(std::in_place_index<0>, val)`. -/
def Result.ofOk {T E : Type} (val : T) : Result T E :=
  ⟨Variant2.alt0 val⟩

/-- `Result(const E&)` / `Result(E&&)`: `value(std::in_place_index<1>, err)`. -/
def Result.ofErr {T E : Type} (err : E) : Result T E :=
  ⟨Variant2.alt1 err⟩

/-- Implicit conversion `Result(OkValue<U>&&)`: stores the wrapped value
at index 0. -/
def Result.ofOkValue {T E : Type} (ok : OkValue T) : Result T E :=
  ⟨Variant2.alt0 ok.value⟩

/-- Implicit conversion `Result(ErrValue<U>&&)`: stores the wrapped error
at index 1. -/
def Result.ofErrValue {T E : Type} (er : ErrValue E) : Result T E :=
  ⟨Variant2.alt1 er.error⟩

/-- `Result::is_ok()`: `value.index() == 0`. -/
def Result.is_ok {T E : Type} (r : Result T E) : Bool :=
  r.value.index == 0

/-- `Result::is_err()`: `value.index() == 1`. -/
def Result.is_err {T E : Type} (r : Result T E) : Bool :=
  r.value.index == 1

/-- `Result::operator bool()`: `is_ok()`. -/
def Result.toBool {T E : Type} (r : Result T E) : Bool :=
  r.is_ok

/-- The message `Result::unwrap()` passes to `rs_panic` on an `Err`. -/
def resultUnwrapErrMsg : String :=
  "called `Result::unwrap()` on an `Err` value"

/-- The message `Result::unwrap_err()` passes to `rs_panic` on an `Ok`. -/
def resultUnwrapOkMsg : String :=
  "called `Result::unwrap_err()` on an `Ok` value"

/-- `Result::unwrap()`: panics with `resultUnwrapErrMsg` if `is_err()`,
else returns `std::get<0>(value)`. -/
def Result.unwrap {T E : Type} (r : Result T E) : PanicOr T :=
  if r.is_err then rs_panic resultUnwrapErrMsg else r.value.get0

/-- `Result::expect(msg)`: panics with the caller's message if `is_err()`. -/
def Result.expect {T E : Type} (r : Result T E) (msg : String) : PanicOr T :=
  if r.is_err then rs_panic msg else r.value.get0

/-- `Result::unwrap_err()`: panics with `resultUnwrapOkMsg` if `is_ok()`,
else returns `std::get<1>(value)`. -/
def Result.unwrap_err {T E : Type} (r : Result T E) : PanicOr E :=
  if r.is_ok then rs_panic resultUnwrapOkMsg else r.value.get1

/-- `Result::operator*`: body is `return unwrap();`. -/
def Result.star {T E : Type} (r : Result T E) : PanicOr T :=
  r.unwrap

/-- `Result::operator->`: body is `return &unwrap();`. -/
def Result.arrow {T E : Type} (r : Result T E) : PanicOr T :=
  r.unwrap

/-- `Result::match(f_ok, f_err)`: if `is_ok()`, `f_ok(std::get<0>(value))`,
else `f_err(std::get<1>(value))`; both branches are always unary. -/
def Result.match' {T E R : Type} (r : Result T E) (f_ok : T → R)
    (f_err : E → R) : R :=
  match r.value with
  | .alt0 v => f_ok v
  | .alt1 e => f_err e

/-- Free factory `Some(v)`: builds `Option<std::decay_t<T>>` from the value. -/
def Some {T : Type} (v : T) : Option T :=
  Option.ofVal v

/-- Free factory `None()`: returns `std::monostate{}`, a type-agnostic tag
that converts into `Option<T>` for any `T` via `Option(std::monostate)`. -/
def None : Monostate :=
  ⟨⟩

/-- Free factory `Ok(v)`: wraps the value in an `OkValue`. -/
def Ok {T : Type} (v : T) : OkValue T :=
  ⟨v⟩

/-- Zero-argument overload `Ok()`: `OkValue<Unit>{Unit{}}`. -/
def OkNoArg : OkValue Unit :=
  ⟨⟨⟩⟩

/-- Free factory `Err(e)`: wraps the error in an `ErrValue`. -/
def Err {E : Type} (e : E) : ErrValue E :=
  ⟨e⟩

end Rustic

example : (Rustic.Option.Some 3).unwrap = Rustic.PanicOr.ret 3 := by decide
example : (Rustic.Option.None : Rustic.Option Nat).unwrap
    = Rustic.PanicOr.panic Rustic.optionUnwrapNoneMsg := by decide
example : (Rustic.Result.ofErr 7 : Rustic.Result Nat Nat).unwrap
    = Rustic.PanicOr.panic Rustic.resultUnwrapErrMsg := by decide
example : (Rustic.Result.ofOk 7 : Rustic.Result Nat Nat).unwrap_err
    = Rustic.PanicOr.panic Rustic.resultUnwrapOkMsg := by decide

namespace Rustic

/-- Labels for the query/accessor calls on an `Option` named by the frame
claim: `is_some`, `is_none`, `operator bool`, `unwrap`, `expect`,
`unwrap_or`, `operator*`, `operator->`, and `match`. -/
inductive OptQuery (T : Type) : Type
  | isSomeQ
  | isNoneQ
  | boolQ
  | unwrapQ
  | expectQ (msg : String)
  | unwrapOrQ (d : T)
  | starQ
  | arrowQ
  | matchQ (f_some : SomeBranch T Bool) (f_none : Unit → Bool)

/-- Heterogeneous result of an accessor call. -/
inductive QueryOut (T : Type) : Type
  | outB (b : Bool)
  | outV (r : PanicOr T)

/-- State-passing rendering of the `Option` accessors. Every listed method
is declared `const` in the source — and the non-const `unwrap`/`expect`/
pointer overloads contain no assignment to `value` — so each call pairs
its return value with the receiver unchanged. -/
def Option.exec {T : Type} (o : Option T) : OptQuery T → QueryOut T × Option T
  | .isSomeQ => (.outB o.is_some, o)
  | .isNoneQ => (.outB o.is_none, o)
  | .boolQ => (.outB o.toBool, o)
  | .unwrapQ => (.outV o.unwrap, o)
  | .expectQ msg => (.outV (o.expect msg), o)
  | .unwrapOrQ d => (.outV (o.unwrap_or d), o)
  | .starQ => (.outV o.star, o)
  | .arrowQ => (.outV o.arrow, o)
  | .matchQ fs fn => (.outB (o.match' fs fn), o)

/-- `Option::operator=` (implicitly defaulted): whole-container
reassignment replaces the stored variant wholesale. -/
def Option.assign {T : Type} (_o o' : Option T) : Option T :=
  o'

/-- Labels for the query/accessor calls on a `Result`: `is_ok`, `is_err`,
`operator bool`, `unwrap`, `expect`, `unwrap_err`, `operator*`,
`operator->`, and `match`. -/
inductive ResQuery (T E : Type) : Type
  | isOkQ
  | isErrQ
  | boolQ
  | unwrapQ
  | expectQ (msg : String)
  | unwrapErrQ
  | starQ
  | arrowQ
  | matchQ (f_ok : T → Bool) (f_err : E → Bool)

/-- Heterogeneous result of a `Result` accessor call. -/
inductive ResQueryOut (T E : Type) : Type
  | outB (b : Bool)
  | outT (r : PanicOr T)
  | outE (r : PanicOr E)

/-- State-passing rendering of the `Result` accessors; as for `Option`,
no method body assigns to `value`, so the receiver is unchanged. -/
def Result.exec {T E : Type} (r : Result T E) :
    ResQuery T E → ResQueryOut T E × Result T E
  | .isOkQ => (.outB r.is_ok, r)
  | .isErrQ => (.outB r.is_err, r)
  | .boolQ => (.outB r.toBool, r)
  | .unwrapQ => (.outT r.unwrap, r)
  | .expectQ msg => (.outT (r.expect msg), r)
  | .unwrapErrQ => (.outE r.unwrap_err, r)
  | .starQ => (.outT r.star, r)
  | .arrowQ => (.outT r.arrow, r)
  | .matchQ fo fe => (.outB (r.match' fo fe), r)

/-- `Result::operator=` (implicitly defaulted): whole-container
reassignment. -/
def Result.assign {T E : Type} (_r r' : Result T E) : Result T E :=
  r'

end Rustic

/-- Claim C1, counterexample: on an absent container `unwrap` does panic,
but with the code's actual message, which is not
"called unwrap on an absent value", and the emitted diagnostic does not
contain the text "absent". -/
theorem C1_message_counterexample :
    (Rustic.Option.None : Rustic.Option Nat).unwrap
      ≠ Rustic.PanicOr.panic "called unwrap on an absent value" ∧
    ¬ (("absent".data) <:+:
        (Rustic.panicDiagnostic Rustic.optionUnwrapNoneMsg).data) := by
  constructor
  · decide
  · decide

/-- Claim C1 (amended): for every payload type, `unwrap` on an absent
container triggers a panic whose message is
"called `Option::unwrap()` on a `None` value" — the diagnostic contains
the text "None" — and never returns a value; on a present container it
returns the held value. -/
theorem C1_option_unwrap_contract (T : Type) (v : T) :
    (Rustic.Option.None : Rustic.Option T).unwrap
      = Rustic.rs_panic Rustic.optionUnwrapNoneMsg ∧
    (∀ u : T, (Rustic.Option.None : Rustic.Option T).unwrap
      ≠ Rustic.PanicOr.ret u) ∧
    (("None".data) <:+:
        (Rustic.panicDiagnostic Rustic.optionUnwrapNoneMsg).data) ∧
    (Rustic.Option.Some v).unwrap = Rustic.PanicOr.ret v := by
  refine ⟨rfl, ?_, by decide, rfl⟩
  intro u h
  exact Rustic.PanicOr.noConfusion h

/-- Claim C2, counterexample: `unwrap` on a failure-state `Result` and
`unwrap_err` on a success-state `Result` panic with the code's actual
messages, not with "called unwrap on a failure value" /
"called unwrap_err on a success value". -/
theorem C2_message_counterexample :
    (Rustic.Result.ofErr 0 : Rustic.Result Nat Nat).unwrap
      ≠ Rustic.PanicOr.panic "called unwrap on a failure value" ∧
    (Rustic.Result.ofOk 0 : Rustic.Result Nat Nat).unwrap_err
      ≠ Rustic.PanicOr.panic "called unwrap_err on a success value" := by
  constructor
  · decide
  · decide

/-- Claim C2 (amended): `unwrap` on a failure-state `Result` panics with
message "called `Result::unwrap()` on an `Err` value" and never returns;
`unwrap_err` on a success-state `Result` panics with message
"called `Result::unwrap_err()` on an `Ok` value" and never returns; on
the matching state each returns the live payload. -/
theorem C2_result_unwrap_contract (T E : Type) (v : T) (e : E) :
    (Rustic.Result.ofErr e : Rustic.Result T E).unwrap
      = Rustic.rs_panic Rustic.resultUnwrapErrMsg ∧
    (∀ u : T, (Rustic.Result.ofErr e : Rustic.Result T E).unwrap
      ≠ Rustic.PanicOr.ret u) ∧
    (Rustic.Result.ofOk v : Rustic.Result T E).unwrap_err
      = Rustic.rs_panic Rustic.resultUnwrapOkMsg ∧
    (∀ u : E, (Rustic.Result.ofOk v : Rustic.Result T E).unwrap_err
      ≠ Rustic.PanicOr.ret u) ∧
    (Rustic.Result.ofOk v : Rustic.Result T E).unwrap = Rustic.PanicOr.ret v ∧
    (Rustic.Result.ofErr e : Rustic.Result T E).unwrap_err
      = Rustic.PanicOr.ret e := by
  refine ⟨rfl, ?_, rfl, ?_, rfl, rfl⟩
  · intro u h
    exact Rustic.PanicOr.noConfusion h
  · intro u h
    exact Rustic.PanicOr.noConfusion h

/-- Claim C3: an `Ok(v)` builder value converted into `Result<T,E>` yields
`is_ok() == true` and `unwrap() == v`; an `Err(e)` builder value converted
similarly yields `is_err() == true` and `unwrap_err() == e`. -/
theorem C3_builder_conversion (T E : Type) (v : T) (e : E) :
    (Rustic.Result.ofOkValue (Rustic.Ok v) : Rustic.Result T E).is_ok
      = true ∧
    (Rustic.Result.ofOkValue (Rustic.Ok v) : Rustic.Result T E).unwrap
      = Rustic.PanicOr.ret v ∧
    (Rustic.Result.ofErrValue (Rustic.Err e) : Rustic.Result T E).is_err
      = true ∧
    (Rustic.Result.ofErrValue (Rustic.Err e) : Rustic.Result T E).unwrap_err
      = Rustic.PanicOr.ret e :=
  ⟨rfl, rfl, rfl, rfl⟩

/-- Claim C4: `Some(v)` produces a container with `is_some() == true`,
`is_none() == false` and `unwrap() == v` (round-trip identity);
the absent construction (`None()` converted, or the static factory)
produces `is_none() == true`. -/
theorem C4_some_none_roundtrip (T : Type) (v : T) :
    (Rustic.Some v).is_some = true ∧
    (Rustic.Some v).is_none = false ∧
    (Rustic.Some v).unwrap = Rustic.PanicOr.ret v ∧
    (Rustic.Option.ofMonostate Rustic.None : Rustic.Option T).is_none
      = true ∧
    (Rustic.Option.None : Rustic.Option T).is_none = true :=
  ⟨rfl, rfl, rfl, rfl, rfl⟩

/-- Claim C5: match mutual exclusivity. For a present `Option`, the result
of `match` is exactly the present branch applied to the contained value —
for every choice of the absent branch, so the absent branch is never
consulted — and symmetrically for an absent `Option` and for the two
states of `Result`. -/
theorem C5_match_mutual_exclusive (T E R : Type)
    (o1 o2 : Rustic.Option T) (r1 r2 : Rustic.Result T E)
    (h1 : o1.is_some = true) (h2 : o2.is_none = true)
    (h3 : r1.is_ok = true) (h4 : r2.is_err = true) :
    (∃ v, ∀ (f : T → R) (g : Rustic.Unit → R),
        o1.match' (Rustic.SomeBranch.unary f) g = f v) ∧
    (∀ (fs : Rustic.SomeBranch T R) (g : Rustic.Unit → R),
        o2.match' fs g = g ⟨⟩) ∧
    (∃ v, ∀ (f : T → R) (g : E → R), r1.match' f g = f v) ∧
    (∃ e, ∀ (f : T → R) (g : E → R), r2.match' f g = g e) := by
  refine ⟨?_, ?_, ?_, ?_⟩
  · rcases o1 with ⟨x⟩
    cases x with
    | alt0 m => exact Bool.noConfusion h1
    | alt1 v => exact ⟨v, fun f g => rfl⟩
  · rcases o2 with ⟨x⟩
    cases x with
    | alt0 m => exact fun fs g => rfl
    | alt1 v => exact Bool.noConfusion h2
  · rcases r1 with ⟨x⟩
    cases x with
    | alt0 v => exact ⟨v, fun f g => rfl⟩
    | alt1 e => exact Bool.noConfusion h3
  · rcases r2 with ⟨x⟩
    cases x with
    | alt0 v => exact Bool.noConfusion h4
    | alt1 e => exact ⟨e, fun f g => rfl⟩

/-- Witness for C5 at concrete containers. -/
theorem C5_match_mutual_exclusive_witness :
    (∃ v, ∀ (f : Nat → Nat) (g : Rustic.Unit → Nat),
        (Rustic.Option.Some 3).match' (Rustic.SomeBranch.unary f) g = f v) ∧
    (∀ (fs : Rustic.SomeBranch Nat Nat) (g : Rustic.Unit → Nat),
        (Rustic.Option.None : Rustic.Option Nat).match' fs g = g ⟨⟩) ∧
    (∃ v, ∀ (f : Nat → Nat) (g : Bool → Nat),
        (Rustic.Result.ofOk 1 : Rustic.Result Nat Bool).match' f g = f v) ∧
    (∃ e, ∀ (f : Nat → Nat) (g : Bool → Nat),
        (Rustic.Result.ofErr true : Rustic.Result Nat Bool).match' f g
          = g e) :=
  C5_match_mutual_exclusive Nat Bool Nat (Rustic.Option.Some 3)
    Rustic.Option.None (Rustic.Result.ofOk 1) (Rustic.Result.ofErr true)
    rfl rfl rfl rfl

/-- Claim C6: `Option::match` protocol. When present, a branch invocable
with the contained value (the `unary` shape) is called with that value;
a branch that is not (the `nullary` shape, e.g. `DefaultCase()`) is
called with no arguments; the absent branch is always called with zero
arguments; in every case `match` returns exactly what the invoked branch
returns. -/
theorem C6_option_match_protocol (T R : Type) (v : T)
    (f : T → R) (fnul : Rustic.Unit → R) (g : Rustic.Unit → R) :
    (Rustic.Option.Some v).match' (Rustic.SomeBranch.unary f) g = f v ∧
    (Rustic.Option.Some v).match' (Rustic.SomeBranch.nullary fnul) g
      = fnul ⟨⟩ ∧
    (Rustic.Option.None : Rustic.Option T).match'
      (Rustic.SomeBranch.unary f) g = g ⟨⟩ ∧
    (Rustic.Option.None : Rustic.Option T).match'
      (Rustic.SomeBranch.nullary fnul) g = g ⟨⟩ :=
  ⟨rfl, rfl, rfl, rfl⟩

/-- Claim C7: `unwrap_or` returns the held value on a present container
and the supplied default on an absent one, and never panics on any
container. -/
theorem C7_unwrap_or_total (T : Type) (v d : T) :
    (Rustic.Option.Some v).unwrap_or d = Rustic.PanicOr.ret v ∧
    (Rustic.Option.None : Rustic.Option T).unwrap_or d
      = Rustic.PanicOr.ret d ∧
    (∀ (o : Rustic.Option T) (m : String),
        o.unwrap_or d ≠ Rustic.PanicOr.panic m) := by
  refine ⟨rfl, rfl, ?_⟩
  intro o m h
  rcases o with ⟨x⟩
  cases x with
  | alt0 m0 => exact Rustic.PanicOr.noConfusion h
  | alt1 w => exact Rustic.PanicOr.noConfusion h

/-- Claim C8: dereference-style access coincides with `unwrap` on both
containers and in both states: `operator*` and `operator->` return what
`unwrap` returns on the matching state and trigger the identical panic on
the mismatching one. -/
theorem C8_deref_equiv_unwrap (T E : Type)
    (o : Rustic.Option T) (r : Rustic.Result T E) (v : T) (e : E) :
    o.star = o.unwrap ∧ o.arrow = o.unwrap ∧
    r.star = r.unwrap ∧ r.arrow = r.unwrap ∧
    (Rustic.Option.Some v).star = Rustic.PanicOr.ret v ∧
    (Rustic.Option.None : Rustic.Option T).star
      = Rustic.rs_panic Rustic.optionUnwrapNoneMsg ∧
    (Rustic.Result.ofOk v : Rustic.Result T E).star
      = Rustic.PanicOr.ret v ∧
    (Rustic.Result.ofErr e : Rustic.Result T E).star
      = Rustic.rs_panic Rustic.resultUnwrapErrMsg :=
  ⟨rfl, rfl, rfl, rfl, rfl, rfl, rfl, rfl⟩

/-- Claim C9: frame property. Every query and accessor call on either
container returns the receiver unchanged as its post-state; the state
and payload change only through whole-container reassignment, which
replaces the container wholesale. -/
theorem C9_accessors_frame (T E : Type) (o o2 : Rustic.Option T)
    (r r2 : Rustic.Result T E) :
    (∀ q : Rustic.OptQuery T, (o.exec q).2 = o) ∧
    (∀ q : Rustic.ResQuery T E, (r.exec q).2 = r) ∧
    Rustic.Option.assign o o2 = o2 ∧
    Rustic.Result.assign r r2 = r2 := by
  refine ⟨?_, ?_, rfl, rfl⟩
  · intro q
    cases q <;> rfl
  · intro q
    cases q <;> rfl

/-- Claim C10: implicit construction paths. Constructing an `Option<T>`
directly from a `T` value yields the present state holding that value;
the free factory `None()` returns the type-agnostic `std::monostate` tag,
which converts into `Option<T>` for every `T`, always yielding the absent
state (as does default construction); in each path the resulting state is
fixed by the construction path alone. -/
theorem C10_option_construction_paths (T : Type) (v : T)
    (m : Rustic.Monostate) :
    (Rustic.Option.ofVal v).is_some = true ∧
    (Rustic.Option.ofVal v).unwrap = Rustic.PanicOr.ret v ∧
    (Rustic.Option.mkDefault : Rustic.Option T).is_none = true ∧
    (Rustic.Option.ofMonostate m : Rustic.Option T).is_none = true ∧
    Rustic.None = Rustic.Monostate.mk ∧
    (Rustic.Option.ofMonostate Rustic.None : Rustic.Option T).is_none
      = true :=
  ⟨rfl, rfl, rfl, rfl, rfl, rfl⟩
